import Mathlib

/-!
Verification development for the deploify webhook reconciler
(`src/index.js` of flaviolivolsi/deploify).

The JavaScript module is shallowly embedded below:

* pure helpers (`is_mergeable_on_qa_branch`, `is_creatable_or_updatable`,
  app naming) become Lean functions over `String`/`Bool`;
* the configured `RegExp` test becomes an abstract predicate
  `branch_regex : String → Bool` in `Config` (the code rebuilds
  `new RegExp(config.branch_regex)` at every use, so its behaviour is
  exactly one boolean test per branch name);
* the remote HTTP interactions are modelled by a `World` record giving
  the outcome of each provider call; the promise chains of
  `create_or_update_app` and `webhook` become functions from `World`
  to the ordered trace of provider calls they issue plus the outcome;
* the scoping bug in `bitbucket_oauth` (the unbound identifier `oauth2`)
  is modelled with the explicit list of identifiers bound in the module
  scope and JavaScript promise semantics: a throw inside a node-style
  callback settles nothing, so the promise stays pending.
-/

namespace Deploify

/-- A Bitbucket pull-request id as it appears in a JSON payload:
either a JSON string or an integer (`pullrequest.id` in the webhook body,
`values[0].id` in the pull-request search response). -/
inductive JsId
  | str : String → JsId
  | num : Int → JsId
  deriving DecidableEq, Repr

/-- The character of one decimal digit, as JavaScript number-to-string
conversion produces for integer-valued numbers. -/
def decDigit : Nat → Char
  | 0 => '0'
  | 1 => '1'
  | 2 => '2'
  | 3 => '3'
  | 4 => '4'
  | 5 => '5'
  | 6 => '6'
  | 7 => '7'
  | 8 => '8'
  | 9 => '9'
  | _ => '*'

/-- Numeric value of a decimal digit character (inverse of `decDigit`). -/
def decDigitVal : Char → Nat
  | '1' => 1
  | '2' => 2
  | '3' => 3
  | '4' => 4
  | '5' => 5
  | '6' => 6
  | '7' => 7
  | '8' => 8
  | '9' => 9
  | _ => 0

/-- Most-significant-first decimal digits of `n`; the first argument is
fuel (taking `fuel = n` suffices since `n / 10 < n` for `n > 0`). -/
def natDecChars : Nat → Nat → List Char
  | 0, _ => []
  | fuel + 1, n => if n = 0 then [] else natDecChars fuel (n / 10) ++ [decDigit (n % 10)]

/-- Decimal string of a natural number, as JavaScript renders integer
values (no sign, no leading zeros, `0` for zero). -/
def natToDecString (n : Nat) : String :=
  if n = 0 then "0" else String.mk (natDecChars n n)

/-- Decimal string of an integer, as JavaScript renders integer values. -/
def intToDecString (i : Int) : String :=
  if i < 0 then "-" ++ natToDecString i.natAbs else natToDecString i.natAbs

/-- JavaScript ToString on a pull-request id value: a string is itself,
a number is rendered in decimal.  This is the conversion applied by the
string concatenation `config.domain_prefix + pullrequest_id`. -/
def jsIdToString : JsId → String
  | .str s => s
  | .num n => intToDecString n

/-- The configuration object handed to the module (src/index.js lines
13-25).  Only the fields the reconciler logic reads are modelled.
`domain_pre` models `config.domain_prefix` (name shortened);
`branch_regex` models `fun b => new RegExp(config.branch_regex).test(b)`. -/
structure Config where
  domain_pre : String
  branch_regex : String → Bool
  env_vars : List (String × String)
  bitbucket_user : String
  bitbucket_password : String

/-- The fields of `req.body.pullrequest` that the webhook reads
(src/index.js lines 244-248), flattened:
`source.repository.full_name`, `source.branch.name`,
`destination.branch.name`, `title`, `id`, `state`. -/
structure PullRequest where
  repo_full_name : String
  source_branch : String
  destination_branch : String
  title : String
  id : JsId
  state : String
  deriving DecidableEq, Repr

/-- A Heroku app as returned by `heroku.get("/apps")` or
`heroku.post("/apps")`: the code reads only `name` and `web_url`. -/
structure HerokuApp where
  name : String
  web_url : String
  deriving DecidableEq, Repr

/-- The argument object of `create_or_update_app` (src/index.js lines
271-277 and 285-291). -/
structure BuildObj where
  repo_full_name : String
  deployable_branch : String
  pullrequest_title : String
  pullrequest_id : JsId
  app_name : String
  deriving DecidableEq, Repr

/-- One provider call issued during the handling of a webhook event,
with the arguments relevant to the claims. -/
inductive Call
  | herokuAuth
  | getApps
  | createApp (name : String)
  | patchConfigVars (name : String)
  | postBuild (name : String) (deployable_branch : String) (tarball : String)
  | postComment (id : JsId)
  | deleteApp (name : String)
  | prLookup (repo : String) (branch : String)
  deriving DecidableEq, Repr

/-- Outcomes of the remote provider calls for one webhook delivery.
Each field gives the result the corresponding call would yield if
issued (`.error ()` = the underlying request fails / the promise
rejects).  `pr_lookup` is the settled outcome of `get_pull_request_id`
(`.ok none` = the search resolves with no matching pull request); the
faithful model of that function further below shows its fulfilled
outcomes cannot actually occur at runtime (claim C10). -/
structure World where
  heroku_oauth : Except Unit String
  apps : Except Unit (List HerokuApp)
  create_app : Except Unit HerokuApp
  patch_config : Except Unit Unit
  post_build : Except Unit Unit
  post_comment : Except Unit Unit
  delete_app : Except Unit Unit
  pr_lookup : Except Unit (Option JsId)

/-- What the webhook handler does at transport level: send a status,
or throw synchronously before sending anything. -/
inductive HandlerOutcome
  | response (status : Nat)
  | thrown
  deriving DecidableEq, Repr

/-- src/index.js lines 130-132: the branch is going to be merged on a
QA branch iff the pattern does not match the source and matches the
destination. -/
def is_mergeable_on_qa_branch (cfg : Config) (source destination : String) : Bool :=
  !cfg.branch_regex source && cfg.branch_regex destination

/-- src/index.js lines 143-145: the pull request is creatable or
updatable iff it is non-null and its state is OPEN, or its state is
MERGED and it is mergeable on a QA branch. -/
def is_creatable_or_updatable (cfg : Config)
    (pullrequest : Option PullRequest) (source destination : String) : Bool :=
  match pullrequest with
  | none => false
  | some pr =>
      pr.state == "OPEN" ||
        (pr.state == "MERGED" && is_mergeable_on_qa_branch cfg source destination)

/-- App naming as performed at src/index.js lines 249 and 269:
`config.domain_prefix + pullrequest_id` (JavaScript string
concatenation, converting the id with ToString). -/
def app_name (pre : String) (id : JsId) : String :=
  pre ++ jsIdToString id

/-- The source tarball URL built at src/index.js line 153.  The
percent-encoding of the embedded credentials is not modelled (no claim
depends on the text of the URL; the deployable branch it embeds is
recorded in the `postBuild` trace entry). -/
def tarball_url (cfg : Config) (obj : BuildObj) : String :=
  "https://" ++ cfg.bitbucket_user ++ ":" ++ cfg.bitbucket_password ++
    "@bitbucket.org/" ++ obj.repo_full_name ++ "/get/" ++ obj.deployable_branch ++ ".tar.gz"

/-- src/index.js lines 152-234: the promise chain of
`create_or_update_app`, as a function from the provider-call outcomes to
the ordered trace of calls it issues and a flag telling whether an error
was caught by the final `.catch` (which only logs it: the returned
promise always fulfills, so the flag is invisible to the caller).

Chain: Heroku auth → `GET /apps` → find app by `obj.app_name`;
if absent `POST /apps` then remember `app_url` and patch config vars
(`match` stays unset only for a fresh app); then `POST /apps/…/builds`;
finally, if `app_url` was set and is truthy, post the Bitbucket comment. -/
def create_or_update_app (cfg : Config) (w : World) (obj : BuildObj) :
    List Call × Bool :=
  match w.heroku_oauth with
  | .error _ => ([.herokuAuth], true)
  | .ok _ =>
    match w.apps with
    | .error _ => ([.herokuAuth, .getApps], true)
    | .ok apps =>
      match apps.find? (fun a => a.name == obj.app_name) with
      | none =>
        -- app not found: the pull request is new and an app is created
        match w.create_app with
        | .error _ => ([.herokuAuth, .getApps, .createApp obj.app_name], true)
        | .ok app =>
          -- the app is new: `app_url := app.web_url`, then config vars
          match w.patch_config with
          | .error _ =>
              ([.herokuAuth, .getApps, .createApp obj.app_name,
                .patchConfigVars obj.app_name], true)
          | .ok _ =>
            match w.post_build with
            | .error _ =>
                ([.herokuAuth, .getApps, .createApp obj.app_name,
                  .patchConfigVars obj.app_name,
                  .postBuild obj.app_name obj.deployable_branch (tarball_url cfg obj)], true)
            | .ok _ =>
              -- `if (!app_url)` skips the comment; a JS string is falsy
              -- exactly when it is empty
              if app.web_url == "" then
                ([.herokuAuth, .getApps, .createApp obj.app_name,
                  .patchConfigVars obj.app_name,
                  .postBuild obj.app_name obj.deployable_branch (tarball_url cfg obj)], false)
              else
                match w.post_comment with
                | .error _ =>
                    ([.herokuAuth, .getApps, .createApp obj.app_name,
                      .patchConfigVars obj.app_name,
                      .postBuild obj.app_name obj.deployable_branch (tarball_url cfg obj),
                      .postComment obj.pullrequest_id], true)
                | .ok _ =>
                    ([.herokuAuth, .getApps, .createApp obj.app_name,
                      .patchConfigVars obj.app_name,
                      .postBuild obj.app_name obj.deployable_branch (tarball_url cfg obj),
                      .postComment obj.pullrequest_id], false)
      | some _ =>
        -- app found: it is updated (no create, no config vars, and
        -- `app_url` stays unset so no comment)
        match w.post_build with
        | .error _ =>
            ([.herokuAuth, .getApps,
              .postBuild obj.app_name obj.deployable_branch (tarball_url cfg obj)], true)
        | .ok _ =>
            ([.herokuAuth, .getApps,
              .postBuild obj.app_name obj.deployable_branch (tarball_url cfg obj)], false)

/-- src/index.js lines 242-327: the webhook handler.  The body's
`pullrequest` field is the `Option PullRequest` argument; reading
`req.body.pullrequest.source.repository.full_name` at line 244 throws a
TypeError when `pullrequest` is null/absent, before any status is sent,
so the handler's outcome in that case is `thrown`. -/
def webhook (cfg : Config) (w : World) (pullrequest : Option PullRequest) :
    HandlerOutcome × List Call :=
  match pullrequest with
  | none => (.thrown, [])
  | some pr =>
    let repo_full_name := pr.repo_full_name
    let branch_name := pr.source_branch
    let destination_branch_name := pr.destination_branch
    let the_app_name := app_name cfg.domain_pre pr.id
    -- Pull request created/updated event
    if is_creatable_or_updatable cfg (some pr) branch_name destination_branch_name then
      if !cfg.branch_regex branch_name && pr.state == "OPEN" then
        (.response 200, [])
      else if is_mergeable_on_qa_branch cfg branch_name destination_branch_name then
        -- deployable_branch = destination; PR info re-resolved via
        -- get_pull_request_id(repo_full_name, destination_branch_name)
        match w.pr_lookup with
        | .error _ =>
            (.response 500, [.prLookup repo_full_name destination_branch_name])
        | .ok none =>
            (.response 200, [.prLookup repo_full_name destination_branch_name])
        | .ok (some rid) =>
            (.response 200,
              .prLookup repo_full_name destination_branch_name ::
                (create_or_update_app cfg w
                  ⟨repo_full_name, destination_branch_name, pr.title, rid,
                    app_name cfg.domain_pre rid⟩).1)
      else
        (.response 200,
          (create_or_update_app cfg w
            ⟨repo_full_name, branch_name, pr.title, pr.id, the_app_name⟩).1)
    -- Pull request declined event
    else if pr.state != "OPEN" then
      match w.heroku_oauth with
      | .error _ => (.response 500, [.herokuAuth])
      | .ok _ =>
        match w.apps with
        | .error _ => (.response 500, [.herokuAuth, .getApps])
        | .ok apps =>
          match apps.find? (fun a => a.name == the_app_name) with
          | some _ =>
            match w.delete_app with
            | .error _ =>
                (.response 500, [.herokuAuth, .getApps, .deleteApp the_app_name])
            | .ok _ =>
                (.response 200, [.herokuAuth, .getApps, .deleteApp the_app_name])
          | none => (.response 200, [.herokuAuth, .getApps])
    else
      (.response 400, [])

/- Sample concrete values used by witnesses and counterexamples. -/

/-- A sample configuration: tracked branches are `qa-1` and `qa-main`. -/
def cfgW : Config :=
  ⟨"qapreview-", fun b => b == "qa-1" || b == "qa-main", [("QA", "true")], "user", "pass"⟩

/-- A sample OPEN pull request from a tracked branch. -/
def prOpenW : PullRequest :=
  ⟨"team/repo", "qa-1", "main", "Title", .num 42, "OPEN"⟩

/-- A sample OPEN pull request from an untracked feature branch. -/
def prFeatureW : PullRequest :=
  ⟨"team/repo", "feature-x", "main", "Feature", .num 5, "OPEN"⟩

/-- A sample DECLINED pull request numbered 42. -/
def prDeclinedW : PullRequest :=
  ⟨"team/repo", "qa-1", "main", "Title", .num 42, "DECLINED"⟩

/-- A sample MERGED pull request from a feature branch into `qa-main`. -/
def prMergedW : PullRequest :=
  ⟨"team/repo", "feature-x", "qa-main", "Feature", .num 7, "MERGED"⟩

/-- A sample Heroku app listing containing `qapreview-42`. -/
def appsW : List HerokuApp :=
  [⟨"qapreview-42", "https://qapreview-42.herokuapp.com"⟩]

/-- A sample world in which every provider call succeeds and the
pull-request search finds pull request 99. -/
def worldW : World :=
  ⟨.ok "tok", .ok appsW, .ok ⟨"qapreview-99", "https://qapreview-99.herokuapp.com"⟩,
    .ok (), .ok (), .ok (), .ok (), .ok (some (.num 99))⟩

/-- The `create_or_update_app` argument for pull request 42 of the
sample configuration. -/
def objW : BuildObj :=
  ⟨"team/repo", "qa-1", "Title", .num 42, "qapreview-42"⟩

/-- A sample world whose pull-request search finds no open pull
request (everything else succeeds). -/
def worldNoLookup : World :=
  ⟨.ok "tok", .ok appsW, .ok ⟨"qapreview-99", "https://qapreview-99.herokuapp.com"⟩,
    .ok (), .ok (), .ok (), .ok (), .ok none⟩

/-- A sample world in which the Heroku app listing fails. -/
def worldFailApps : World :=
  ⟨.ok "tok", .error (), .ok ⟨"qapreview-99", "https://qapreview-99.herokuapp.com"⟩,
    .ok (), .ok (), .ok (), .ok (), .ok (some (.num 99))⟩

/- ### Claim C2 -/

/-- C2: `is_mergeable_on_qa_branch` (the spec's `targets_tracked_branch`)
returns true iff the configured branch pattern matches the destination
branch and does not match the source branch. -/
theorem c2_targets_tracked_branch_iff (cfg : Config) (s d : String) :
    is_mergeable_on_qa_branch cfg s d = true ↔
      (cfg.branch_regex d = true ∧ cfg.branch_regex s = false) := by
  simp only [is_mergeable_on_qa_branch, Bool.and_eq_true, Bool.not_eq_true']
  tauto

/- ### Claim C1 -/

/-- C1: the actionability gate `is_creatable_or_updatable` returns false
when the pull request is null/absent; true whenever it is non-null with
state OPEN; for state MERGED it returns true iff
`is_mergeable_on_qa_branch` holds on the branch pair; and false for
every other state. -/
theorem c1_is_creatable_or_updatable_cases (cfg : Config) (s d : String) :
    is_creatable_or_updatable cfg none s d = false ∧
    (∀ pr : PullRequest, pr.state = "OPEN" →
      is_creatable_or_updatable cfg (some pr) s d = true) ∧
    (∀ pr : PullRequest, pr.state = "MERGED" →
      (is_creatable_or_updatable cfg (some pr) s d = true ↔
        is_mergeable_on_qa_branch cfg s d = true)) ∧
    (∀ pr : PullRequest, pr.state ≠ "OPEN" → pr.state ≠ "MERGED" →
      is_creatable_or_updatable cfg (some pr) s d = false) := by
  refine ⟨rfl, ?_, ?_, ?_⟩
  · intro pr h
    simp [is_creatable_or_updatable, h]
  · intro pr h
    simp [is_creatable_or_updatable, h]
  · intro pr h1 h2
    simp [is_creatable_or_updatable, h1, h2]

/-- Witness for C1 at concrete inputs: a null pull request is rejected
and an OPEN one is accepted. -/
theorem c1_is_creatable_or_updatable_cases_witness :
    is_creatable_or_updatable cfgW none "qa-1" "main" = false ∧
    is_creatable_or_updatable cfgW (some prOpenW) "qa-1" "main" = true :=
  ⟨(c1_is_creatable_or_updatable_cases cfgW "qa-1" "main").1,
    (c1_is_creatable_or_updatable_cases cfgW "qa-1" "main").2.1 prOpenW (by decide)⟩

/- ### Trace facts about create_or_update_app (shared helper lemmas) -/

/-- The trace of `create_or_update_app` is one of seven explicit lists,
one per point at which the promise chain can stop. -/
theorem create_or_update_trace_shapes (cfg : Config) (w : World) (obj : BuildObj) :
    (create_or_update_app cfg w obj).1 = [.herokuAuth] ∨
    (create_or_update_app cfg w obj).1 = [.herokuAuth, .getApps] ∨
    (create_or_update_app cfg w obj).1 =
      [.herokuAuth, .getApps, .createApp obj.app_name] ∨
    (create_or_update_app cfg w obj).1 =
      [.herokuAuth, .getApps, .createApp obj.app_name,
        .patchConfigVars obj.app_name] ∨
    (create_or_update_app cfg w obj).1 =
      [.herokuAuth, .getApps, .createApp obj.app_name,
        .patchConfigVars obj.app_name,
        .postBuild obj.app_name obj.deployable_branch (tarball_url cfg obj)] ∨
    (create_or_update_app cfg w obj).1 =
      [.herokuAuth, .getApps, .createApp obj.app_name,
        .patchConfigVars obj.app_name,
        .postBuild obj.app_name obj.deployable_branch (tarball_url cfg obj),
        .postComment obj.pullrequest_id] ∨
    (create_or_update_app cfg w obj).1 =
      [.herokuAuth, .getApps,
        .postBuild obj.app_name obj.deployable_branch (tarball_url cfg obj)] := by
  obtain ⟨ho, ap, ca, pc, pb, pco, da, pl⟩ := w
  cases ho with
  | error e => simp [create_or_update_app]
  | ok t =>
    cases ap with
    | error e => simp [create_or_update_app]
    | ok apps =>
      cases hf : apps.find? (fun a => a.name == obj.app_name) with
      | some a => cases pb <;> simp [create_or_update_app, hf]
      | none =>
        cases ca with
        | error e => simp [create_or_update_app, hf]
        | ok app =>
          cases pc with
          | error e => simp [create_or_update_app, hf]
          | ok u =>
            cases pb with
            | error e => simp [create_or_update_app, hf]
            | ok u =>
              by_cases hw : app.web_url == ""
              · simp [create_or_update_app, hf, hw]
              · cases pco <;> simp [create_or_update_app, hf, hw]

/- ### Claim C6 -/

/-- C6: when the app listing already contains an app whose name equals
the computed `app_name`, `create_or_update_app` issues no app-creation
call and no config-var patch, issues exactly one build trigger, and
posts no comment (its trace is exactly auth, list, build); and in every
run a comment is posted only if the app was created in that same run. -/
theorem c6_update_no_create_no_comment (cfg : Config) (w : World) (obj : BuildObj)
    (t : String) (apps : List HerokuApp)
    (h1 : w.heroku_oauth = .ok t) (h2 : w.apps = .ok apps)
    (h3 : ∃ a ∈ apps, a.name = obj.app_name) :
    (create_or_update_app cfg w obj).1 =
      [.herokuAuth, .getApps,
        .postBuild obj.app_name obj.deployable_branch (tarball_url cfg obj)] ∧
    (∀ (cfg2 : Config) (w2 : World) (obj2 : BuildObj) (i : JsId),
      Call.postComment i ∈ (create_or_update_app cfg2 w2 obj2).1 →
        Call.createApp obj2.app_name ∈ (create_or_update_app cfg2 w2 obj2).1) := by
  constructor
  · have hfind : (apps.find? (fun a => a.name == obj.app_name)).isSome := by
      rw [List.find?_isSome]
      obtain ⟨a, ha, hn⟩ := h3
      exact ⟨a, ha, by simp [hn]⟩
    obtain ⟨a0, hfa⟩ := Option.isSome_iff_exists.mp hfind
    cases hpb : w.post_build <;>
      simp [create_or_update_app, h1, h2, hfa, hpb]
  · intro cfg2 w2 obj2 i h
    rcases create_or_update_trace_shapes cfg2 w2 obj2 with
      hs | hs | hs | hs | hs | hs | hs <;> rw [hs] at h ⊢ <;> simp_all

/-- Witness for C6: with the sample world (whose listing contains
`qapreview-42`) and a pull request numbered 42, the run is exactly
auth, list, build. -/
theorem c6_update_no_create_no_comment_witness :
    (create_or_update_app cfgW worldW objW).1 =
      [.herokuAuth, .getApps,
        .postBuild objW.app_name objW.deployable_branch (tarball_url cfgW objW)] :=
  (c6_update_no_create_no_comment cfgW worldW objW "tok" appsW rfl rfl
    ⟨⟨"qapreview-42", "https://qapreview-42.herokuapp.com"⟩, by simp [appsW], rfl⟩).1

/- ### Claim C7 -/

/-- C7: for a non-null pull request whose state is not OPEN and which is
not actionable, the handler lists the Heroku apps and deletes the app
named `domain_prefix + id` (original id) iff one with that exact name is
listed, issuing no other mutation call; it responds 200 on success
(including the not-found case) and 500 when a provider call of this
path fails. -/
theorem c7_delete_path (cfg : Config) (w : World) (pr : PullRequest)
    (hact : is_creatable_or_updatable cfg (some pr)
      pr.source_branch pr.destination_branch = false)
    (hstate : pr.state ≠ "OPEN") :
    (w.heroku_oauth = .error () →
      webhook cfg w (some pr) = (.response 500, [.herokuAuth])) ∧
    (∀ t, w.heroku_oauth = .ok t → w.apps = .error () →
      webhook cfg w (some pr) = (.response 500, [.herokuAuth, .getApps])) ∧
    (∀ t apps, w.heroku_oauth = .ok t → w.apps = .ok apps →
      (∀ a ∈ apps, a.name ≠ app_name cfg.domain_pre pr.id) →
      webhook cfg w (some pr) = (.response 200, [.herokuAuth, .getApps])) ∧
    (∀ t apps a, w.heroku_oauth = .ok t → w.apps = .ok apps →
      a ∈ apps → a.name = app_name cfg.domain_pre pr.id →
      w.delete_app = .ok () →
      webhook cfg w (some pr) =
        (.response 200,
          [.herokuAuth, .getApps, .deleteApp (app_name cfg.domain_pre pr.id)])) ∧
    (∀ t apps a, w.heroku_oauth = .ok t → w.apps = .ok apps →
      a ∈ apps → a.name = app_name cfg.domain_pre pr.id →
      w.delete_app = .error () →
      webhook cfg w (some pr) =
        (.response 500,
          [.herokuAuth, .getApps, .deleteApp (app_name cfg.domain_pre pr.id)])) := by
  have hb : (pr.state != "OPEN") = true := by
    simp [bne_iff_ne, hstate]
  refine ⟨?_, ?_, ?_, ?_, ?_⟩
  · intro h
    simp [webhook, hact, hb, h]
  · intro t h1 h2
    simp [webhook, hact, hb, h1, h2]
  · intro t apps h1 h2 h3
    have hfind : apps.find? (fun a => a.name == app_name cfg.domain_pre pr.id) = none := by
      rw [List.find?_eq_none]
      intro a ha
      simp [h3 a ha]
    simp [webhook, hact, hb, h1, h2, hfind]
  · intro t apps a h1 h2 ha hn h4
    have hfind : (apps.find? (fun a => a.name == app_name cfg.domain_pre pr.id)).isSome := by
      rw [List.find?_isSome]
      exact ⟨a, ha, by simp [hn]⟩
    obtain ⟨a0, hfa⟩ := Option.isSome_iff_exists.mp hfind
    simp [webhook, hact, hb, h1, h2, hfa, h4]
  · intro t apps a h1 h2 ha hn h4
    have hfind : (apps.find? (fun a => a.name == app_name cfg.domain_pre pr.id)).isSome := by
      rw [List.find?_isSome]
      exact ⟨a, ha, by simp [hn]⟩
    obtain ⟨a0, hfa⟩ := Option.isSome_iff_exists.mp hfind
    simp [webhook, hact, hb, h1, h2, hfa, h4]

/-- Witness for C7: a DECLINED event for pull request 42 in the sample
world deletes `qapreview-42` and responds 200. -/
theorem c7_delete_path_witness :
    webhook cfgW worldW (some prDeclinedW) =
      (.response 200,
        [.herokuAuth, .getApps,
          .deleteApp (app_name cfgW.domain_pre prDeclinedW.id)]) :=
  (c7_delete_path cfgW worldW prDeclinedW (by decide) (by decide)).2.2.2.1
    "tok" appsW ⟨"qapreview-42", "https://qapreview-42.herokuapp.com"⟩
    rfl rfl (by simp [appsW]) (by decide) rfl

/- ### Claim C8 -/

/-- C8: an event whose pull request is OPEN and whose source branch does
not match the tracked pattern is a deliberate no-op: the handler
responds 200 and issues zero provider calls, whatever the destination
branch and the provider outcomes. -/
theorem c8_open_untracked_source_noop (cfg : Config) (w : World) (pr : PullRequest)
    (hstate : pr.state = "OPEN")
    (hreg : cfg.branch_regex pr.source_branch = false) :
    webhook cfg w (some pr) = (.response 200, []) := by
  simp [webhook, is_creatable_or_updatable, hstate, hreg]

/-- Witness for C8: an OPEN pull request from `feature-x` is a no-op
with response 200. -/
theorem c8_open_untracked_source_noop_witness :
    webhook cfgW worldW (some prFeatureW) = (.response 200, []) :=
  c8_open_untracked_source_noop cfgW worldW prFeatureW rfl (by decide)

/-- Every build trigger issued by `create_or_update_app` targets the
app named `obj.app_name` and deploys `obj.deployable_branch`. -/
theorem create_or_update_postBuild_mem (cfg : Config) (w : World) (obj : BuildObj)
    (n b tb : String)
    (h : Call.postBuild n b tb ∈ (create_or_update_app cfg w obj).1) :
    n = obj.app_name ∧ b = obj.deployable_branch := by
  rcases create_or_update_trace_shapes cfg w obj with
    hs | hs | hs | hs | hs | hs | hs <;> rw [hs] at h <;> simp_all

/-- Every comment posted by `create_or_update_app` goes to the pull
request `obj.pullrequest_id`. -/
theorem create_or_update_postComment_mem (cfg : Config) (w : World) (obj : BuildObj)
    (i : JsId) (h : Call.postComment i ∈ (create_or_update_app cfg w obj).1) :
    i = obj.pullrequest_id := by
  rcases create_or_update_trace_shapes cfg w obj with
    hs | hs | hs | hs | hs | hs | hs <;> rw [hs] at h <;> simp_all

/- ### Claim C5 -/

/-- C5: for an actionable MERGED event targeting a tracked branch, the
handler re-resolves the effective pull-request id with a lookup on the
destination branch; when the lookup finds no pull request it performs
no create/update/build action and responds 200; when it finds id `rid`
the run continues with deployable branch = the destination branch and
app name `domain_prefix + rid`, so every build trigger in the trace
deploys the destination branch under the re-resolved name and every
comment goes to the re-resolved pull request. -/
theorem c5_merged_tracked_reresolves (cfg : Config) (w : World) (pr : PullRequest)
    (hstate : pr.state = "MERGED")
    (hsrc : cfg.branch_regex pr.source_branch = false)
    (hdst : cfg.branch_regex pr.destination_branch = true) :
    (w.pr_lookup = .ok none →
      webhook cfg w (some pr) =
        (.response 200, [.prLookup pr.repo_full_name pr.destination_branch])) ∧
    (∀ rid, w.pr_lookup = .ok (some rid) →
      webhook cfg w (some pr) =
        (.response 200,
          .prLookup pr.repo_full_name pr.destination_branch ::
            (create_or_update_app cfg w
              ⟨pr.repo_full_name, pr.destination_branch, pr.title, rid,
                app_name cfg.domain_pre rid⟩).1) ∧
      (∀ n b tb, Call.postBuild n b tb ∈ (webhook cfg w (some pr)).2 →
        n = app_name cfg.domain_pre rid ∧ b = pr.destination_branch) ∧
      (∀ i, Call.postComment i ∈ (webhook cfg w (some pr)).2 → i = rid)) := by
  have hopen : pr.state ≠ "OPEN" := by rw [hstate]; decide
  constructor
  · intro h
    simp [webhook, is_creatable_or_updatable, is_mergeable_on_qa_branch,
      hstate, hsrc, hdst, h]
  · intro rid h
    have heq : webhook cfg w (some pr) =
        (.response 200,
          .prLookup pr.repo_full_name pr.destination_branch ::
            (create_or_update_app cfg w
              ⟨pr.repo_full_name, pr.destination_branch, pr.title, rid,
                app_name cfg.domain_pre rid⟩).1) := by
      simp [webhook, is_creatable_or_updatable, is_mergeable_on_qa_branch,
        hstate, hsrc, hdst, h]
    refine ⟨heq, ?_, ?_⟩
    · intro n b tb hmem
      rw [heq] at hmem
      simp only [List.mem_cons] at hmem
      rcases hmem with hmem | hmem
      · exact absurd hmem (by simp)
      · exact create_or_update_postBuild_mem cfg w _ n b tb hmem
    · intro i hmem
      rw [heq] at hmem
      simp only [List.mem_cons] at hmem
      rcases hmem with hmem | hmem
      · exact absurd hmem (by simp)
      · exact create_or_update_postComment_mem cfg w _ i hmem

/-- Witness for C5: the sample MERGED event into `qa-main` re-resolves
to pull request 99 and continues with it; with a sample world whose
lookup finds nothing, the event is a 200 no-op after the lookup. -/
theorem c5_merged_tracked_reresolves_witness :
    webhook cfgW worldW (some prMergedW) =
      (.response 200,
        .prLookup prMergedW.repo_full_name prMergedW.destination_branch ::
          (create_or_update_app cfgW worldW
            ⟨prMergedW.repo_full_name, prMergedW.destination_branch,
              prMergedW.title, .num 99, app_name cfgW.domain_pre (.num 99)⟩).1) ∧
    webhook cfgW worldNoLookup (some prMergedW) =
      (.response 200,
        [.prLookup prMergedW.repo_full_name prMergedW.destination_branch]) :=
  ⟨((c5_merged_tracked_reresolves cfgW worldW prMergedW rfl (by decide)
      (by decide)).2 (.num 99) rfl).1,
    (c5_merged_tracked_reresolves cfgW worldNoLookup prMergedW rfl (by decide)
      (by decide)).1 rfl⟩

/- ### Claim C3 -/

/-- C3 counterexample: an OPEN event from a tracked branch whose Heroku
app listing fails is answered with 200, not 500 — the final `.catch` of
`create_or_update_app` only logs the error, so the promise returned to
the webhook fulfills and `res.sendStatus(200)` runs. -/
theorem c3_counterexample_failure_gives_200 :
    webhook cfgW worldFailApps (some prOpenW) =
      (.response 200, [.herokuAuth, .getApps]) ∧
    (webhook cfgW worldFailApps (some prOpenW)).1 ≠ .response 500 := by
  constructor
  · decide
  · decide

/-- C3 amended: for every event routed to the CREATE_OR_UPDATE path —
actionable and not the deliberate OPEN-with-untracked-source no-op —
when a provider call of that path (app listing, app creation,
config-var patch, build trigger, comment post, or the Heroku auth
before them) fails, no subsequent step of the path is executed and no
rollback is attempted; the error is caught and logged inside
`create_or_update_app` and the webhook responds 200, not 500.  The
three conjuncts cover every route of the path: the plain route, the
MERGED-into-tracked route after the id re-resolves to `rid`, and the
MERGED-into-tracked route whose lookup finds nothing (which issues
none of those calls); the response is 200 for every world in each.
The final conjunct gives the exact stopping trace of
`create_or_update_app` after each possible failure. -/
theorem c3_amended_failure_caught_and_logged (cfg : Config) (w : World)
    (pr : PullRequest)
    (hact : is_creatable_or_updatable cfg (some pr)
      pr.source_branch pr.destination_branch = true)
    (hnoop : ¬(cfg.branch_regex pr.source_branch = false ∧ pr.state = "OPEN")) :
    (is_mergeable_on_qa_branch cfg pr.source_branch pr.destination_branch = false →
      webhook cfg w (some pr) =
        (.response 200,
          (create_or_update_app cfg w
            ⟨pr.repo_full_name, pr.source_branch, pr.title, pr.id,
              app_name cfg.domain_pre pr.id⟩).1)) ∧
    (∀ rid,
      is_mergeable_on_qa_branch cfg pr.source_branch pr.destination_branch = true →
      w.pr_lookup = .ok (some rid) →
      webhook cfg w (some pr) =
        (.response 200,
          .prLookup pr.repo_full_name pr.destination_branch ::
            (create_or_update_app cfg w
              ⟨pr.repo_full_name, pr.destination_branch, pr.title, rid,
                app_name cfg.domain_pre rid⟩).1)) ∧
    (is_mergeable_on_qa_branch cfg pr.source_branch pr.destination_branch = true →
      w.pr_lookup = .ok none →
      webhook cfg w (some pr) =
        (.response 200, [.prLookup pr.repo_full_name pr.destination_branch])) ∧
    (∀ obj : BuildObj,
      (w.heroku_oauth = .error () →
        (create_or_update_app cfg w obj).1 = [.herokuAuth]) ∧
      (∀ t, w.heroku_oauth = .ok t → w.apps = .error () →
        (create_or_update_app cfg w obj).1 = [.herokuAuth, .getApps]) ∧
      (∀ t apps, w.heroku_oauth = .ok t → w.apps = .ok apps →
        (∀ a ∈ apps, a.name ≠ obj.app_name) → w.create_app = .error () →
        (create_or_update_app cfg w obj).1 =
          [.herokuAuth, .getApps, .createApp obj.app_name]) ∧
      (∀ t apps app, w.heroku_oauth = .ok t → w.apps = .ok apps →
        (∀ a ∈ apps, a.name ≠ obj.app_name) → w.create_app = .ok app →
        w.patch_config = .error () →
        (create_or_update_app cfg w obj).1 =
          [.herokuAuth, .getApps, .createApp obj.app_name,
            .patchConfigVars obj.app_name]) ∧
      (∀ t apps app, w.heroku_oauth = .ok t → w.apps = .ok apps →
        (∀ a ∈ apps, a.name ≠ obj.app_name) → w.create_app = .ok app →
        w.patch_config = .ok () → w.post_build = .error () →
        (create_or_update_app cfg w obj).1 =
          [.herokuAuth, .getApps, .createApp obj.app_name,
            .patchConfigVars obj.app_name,
            .postBuild obj.app_name obj.deployable_branch (tarball_url cfg obj)]) ∧
      (∀ t apps a, w.heroku_oauth = .ok t → w.apps = .ok apps →
        a ∈ apps → a.name = obj.app_name → w.post_build = .error () →
        (create_or_update_app cfg w obj).1 =
          [.herokuAuth, .getApps,
            .postBuild obj.app_name obj.deployable_branch (tarball_url cfg obj)])) := by
  have hcond : (!cfg.branch_regex pr.source_branch && (pr.state == "OPEN")) = false := by
    cases h : cfg.branch_regex pr.source_branch with
    | false =>
      have hs : pr.state ≠ "OPEN" := fun hs => hnoop ⟨h, hs⟩
      simp [hs]
    | true => simp
  refine ⟨?_, ?_, ?_, ?_⟩
  · intro hmerge
    simp [webhook, hact, hcond, hmerge]
  · intro rid hmerge hlk
    simp [webhook, hact, hcond, hmerge, hlk]
  · intro hmerge hlk
    simp [webhook, hact, hcond, hmerge, hlk]
  · intro obj
    refine ⟨?_, ?_, ?_, ?_, ?_, ?_⟩
    · intro h
      simp [create_or_update_app, h]
    · intro t h1 h2
      simp [create_or_update_app, h1, h2]
    · intro t apps h1 h2 h3 h4
      have hfind : apps.find? (fun a => a.name == obj.app_name) = none := by
        rw [List.find?_eq_none]
        intro a ha
        simp [h3 a ha]
      simp [create_or_update_app, h1, h2, hfind, h4]
    · intro t apps app h1 h2 h3 h4 h5
      have hfind : apps.find? (fun a => a.name == obj.app_name) = none := by
        rw [List.find?_eq_none]
        intro a ha
        simp [h3 a ha]
      simp [create_or_update_app, h1, h2, hfind, h4, h5]
    · intro t apps app h1 h2 h3 h4 h5 h6
      have hfind : apps.find? (fun a => a.name == obj.app_name) = none := by
        rw [List.find?_eq_none]
        intro a ha
        simp [h3 a ha]
      simp [create_or_update_app, h1, h2, hfind, h4, h5, h6]
    · intro t apps a h1 h2 ha hn h3
      have hfind : (apps.find? (fun a => a.name == obj.app_name)).isSome := by
        rw [List.find?_isSome]
        exact ⟨a, ha, by simp [hn]⟩
      obtain ⟨a0, hfa⟩ := Option.isSome_iff_exists.mp hfind
      simp [create_or_update_app, h1, h2, hfa, h3]

/-- Witness for C3 amended: with the failing-listing world the handler
responds 200 and the trace stops right after the listing call, on both
the plain OPEN route and the MERGED-into-tracked route. -/
theorem c3_amended_failure_caught_and_logged_witness :
    webhook cfgW worldFailApps (some prOpenW) =
      (.response 200, [.herokuAuth, .getApps]) ∧
    webhook cfgW worldFailApps (some prMergedW) =
      (.response 200, [.prLookup "team/repo" "qa-main", .herokuAuth, .getApps]) := by
  have h := c3_amended_failure_caught_and_logged cfgW worldFailApps prOpenW
    (by decide) (by decide)
  have h2 := c3_amended_failure_caught_and_logged cfgW worldFailApps prMergedW
    (by decide) (by decide)
  constructor
  · rw [h.1 (by decide),
      (h.2.2.2 ⟨prOpenW.repo_full_name, prOpenW.source_branch, prOpenW.title,
        prOpenW.id, app_name cfgW.domain_pre prOpenW.id⟩).2.1 "tok" rfl rfl]
  · rw [h2.2.1 (.num 99) (by decide) rfl,
      (h2.2.2.2 ⟨prMergedW.repo_full_name, prMergedW.destination_branch,
        prMergedW.title, .num 99, app_name cfgW.domain_pre (.num 99)⟩).2.1
        "tok" rfl rfl]
    rfl

/- ### Claim C4 -/

/-- C4: the webhook reads
`req.body.pullrequest.source.repository.full_name` (line 244) before any
null check, so a request whose body has a null or absent `pullrequest`
field makes the handler throw a TypeError before any status is sent; the
`res.sendStatus(400)` at line 326 is never reached on such input, for
every configuration and every provider behaviour. -/
theorem c4_null_pullrequest_throws (cfg : Config) (w : World) :
    webhook cfg w none = (.thrown, []) := rfl

/- ### Decimal-rendering facts used by claim C9 -/

/-- Value of a most-significant-first decimal digit string. -/
def decCharsToNat (cs : List Char) : Nat :=
  cs.foldl (fun acc c => 10 * acc + decDigitVal c) 0

theorem decCharsToNat_append (l : List Char) (c : Char) :
    decCharsToNat (l ++ [c]) = 10 * decCharsToNat l + decDigitVal c := by
  simp [decCharsToNat, List.foldl_append]

theorem decDigitVal_decDigit (d : Nat) (h : d < 10) :
    decDigitVal (decDigit d) = d := by
  interval_cases d <;> rfl

theorem decDigit_ne_minus (d : Nat) : decDigit d ≠ '-' := by
  unfold decDigit
  split <;> decide

theorem natDecChars_inv : ∀ fuel n, n ≤ fuel →
    decCharsToNat (natDecChars fuel n) = n := by
  intro fuel
  induction fuel with
  | zero =>
    intro n hn
    have : n = 0 := by omega
    subst this
    rfl
  | succ f ih =>
    intro n hn
    by_cases h0 : n = 0
    · subst h0
      rfl
    · have hdiv : n / 10 ≤ f := by
        have := Nat.div_lt_self (Nat.pos_of_ne_zero h0) (by norm_num : 1 < 10)
        omega
      simp only [natDecChars, if_neg h0]
      rw [decCharsToNat_append, ih (n / 10) hdiv,
        decDigitVal_decDigit (n % 10) (Nat.mod_lt n (by norm_num))]
      omega

theorem natDecChars_ne_minus : ∀ fuel n c, c ∈ natDecChars fuel n → c ≠ '-' := by
  intro fuel
  induction fuel with
  | zero =>
    intro n c hc
    simp [natDecChars] at hc
  | succ f ih =>
    intro n c hc
    by_cases h0 : n = 0
    · subst h0
      simp [natDecChars] at hc
    · simp only [natDecChars, if_neg h0, List.mem_append, List.mem_singleton] at hc
      rcases hc with hc | hc
      · exact ih (n / 10) c hc
      · subst hc
        exact decDigit_ne_minus (n % 10)

theorem natToDecString_inv (n : Nat) :
    decCharsToNat (natToDecString n).data = n := by
  by_cases h0 : n = 0
  · subst h0
    rfl
  · unfold natToDecString
    rw [if_neg h0]
    exact natDecChars_inv n n le_rfl

theorem natToDecString_head_ne_minus (n : Nat) :
    (natToDecString n).data.head? ≠ some '-' := by
  by_cases h0 : n = 0
  · subst h0
    decide
  · unfold natToDecString
    rw [if_neg h0]
    cases hd : natDecChars n n with
    | nil => simp
    | cons c cs =>
      have hc : c ∈ natDecChars n n := by
        rw [hd]
        exact List.mem_cons_self c cs
      have := natDecChars_ne_minus n n c hc
      simp [this]

/-- Inverse of `intToDecString`: reads an optional leading minus sign
and then the decimal digits. -/
def intParse (s : String) : Int :=
  if s.data.head? = some '-' then -(decCharsToNat s.data.tail : Int)
  else (decCharsToNat s.data : Int)

theorem intToDecString_inv (i : Int) : intParse (intToDecString i) = i := by
  by_cases hneg : i < 0
  · have hdata : (intToDecString i).data = '-' :: (natToDecString i.natAbs).data := by
      unfold intToDecString
      rw [if_pos hneg]
      rfl
    unfold intParse
    rw [hdata, List.head?_cons, if_pos rfl, List.tail_cons, natToDecString_inv]
    omega
  · have hdata : intToDecString i = natToDecString i.natAbs := by
      unfold intToDecString
      rw [if_neg hneg]
    unfold intParse
    rw [hdata, if_neg (natToDecString_head_ne_minus i.natAbs), natToDecString_inv]
    omega

theorem intToDecString_injective (m n : Int)
    (h : intToDecString m = intToDecString n) : m = n := by
  have := congrArg intParse h
  rwa [intToDecString_inv, intToDecString_inv] at this

theorem string_append_left_cancel (p a b : String)
    (h : p ++ a = p ++ b) : a = b := by
  obtain ⟨la⟩ := a
  obtain ⟨lb⟩ := b
  obtain ⟨lp⟩ := p
  have hd : lp ++ la = lp ++ lb := congrArg String.data h
  have := List.append_cancel_left hd
  simp [this]

/- ### Claim C9 -/

/-- C9 counterexample: the integer id 42 and the string id "42" are
different values, yet they produce the same app name under the same
domain prefix — string concatenation converts the number to the same
text.  So injectivity across the string-or-int union fails. -/
theorem c9_counterexample_cross_kind_collision :
    JsId.num 42 ≠ JsId.str "42" ∧
    app_name "qapreview-" (.num 42) = app_name "qapreview-" (.str "42") := by
  constructor
  · decide
  · decide

/-- C9 amended: app naming `domain_prefix + id` is deterministic and,
for a fixed prefix, injective on ids of the same kind: two distinct
string ids, or two distinct integer ids, always yield distinct app
names.  (Across kinds it is not injective: see the counterexample
`num 42` vs `str "42"`.) -/
theorem c9_amended_app_name_injective_same_kind (pre : String) :
    (∀ s1 s2 : String, s1 ≠ s2 →
      app_name pre (.str s1) ≠ app_name pre (.str s2)) ∧
    (∀ n1 n2 : Int, n1 ≠ n2 →
      app_name pre (.num n1) ≠ app_name pre (.num n2)) := by
  constructor
  · intro s1 s2 hne h
    exact hne (string_append_left_cancel pre s1 s2 h)
  · intro n1 n2 hne h
    have := string_append_left_cancel pre _ _ h
    exact hne (intToDecString_injective n1 n2 this)

/-- Witness for C9 amended: distinct concrete ids of each kind give
distinct names. -/
theorem c9_amended_app_name_injective_same_kind_witness :
    app_name "qapreview-" (.str "a") ≠ app_name "qapreview-" (.str "b") ∧
    app_name "qapreview-" (.num 7) ≠ app_name "qapreview-" (.num 42) :=
  ⟨(c9_amended_app_name_injective_same_kind "qapreview-").1 "a" "b" (by decide),
    (c9_amended_app_name_injective_same_kind "qapreview-").2 7 42 (by decide)⟩

/- ### Claim C10: the scoping bug in bitbucket_oauth -/

/-- The identifiers bound in the module closure of src/index.js: the
four `require` bindings (lines 1-4), the two parameters of the exported
function (line 26), and the `const` bindings of its body (lines 27, 39,
48, 63, 93, 130, 143, 152, 242). -/
def module_scope : List String :=
  ["_", "request", "Heroku", "Oauth2", "app", "config",
    "bitbucket_oauth2", "bitbucket_token_config", "bitbucket_oauth",
    "heroku_oauth", "get_pull_request_id", "is_mergeable_on_qa_branch",
    "is_creatable_or_updatable", "create_or_update_app", "webhook"]

/-- The identifiers in scope inside the `getToken` callback of
`bitbucket_oauth` (lines 50-56): the callback parameters and the
enclosing closure bindings. -/
def bitbucket_oauth_callback_scope : List String :=
  ["error", "result", "resolve", "reject"] ++ module_scope

/-- The settled state a JavaScript promise can reach, or `pending` when
nothing ever settles it (a throw inside a node-style callback is not
caught by the `new Promise` executor, so neither `resolve` nor `reject`
runs). -/
inductive PromiseOutcome (α : Type)
  | fulfilled (a : α)
  | rejected
  | pending
  deriving DecidableEq, Repr

/-- What `oauth2.accessToken.create(result)` would build if the
identifier `oauth2` were bound: an access-token wrapper around the raw
token-endpoint response. -/
structure AccessToken where
  raw : String
  deriving DecidableEq, Repr

/-- The query string built for the pull-request search at line 100:
`source.branch.name="<branch>" AND state = "OPEN"`. -/
def pr_search_query (branch : String) : String :=
  "source.branch.name=\"" ++ branch ++ "\" AND state = \"OPEN\""

/-- src/index.js lines 48-58: `bitbucket_oauth`, as a function of the
Bitbucket token endpoint's outcome.  On endpoint failure the callback
rejects.  On success the callback evaluates
`resolve(oauth2.accessToken.create(result))`: the identifier `oauth2`
is looked up in the callback scope, and only if it is bound can the
promise fulfill; an unbound identifier throws a ReferenceError inside
the node-style callback, settling nothing, so the promise stays
pending. -/
def bitbucket_oauth (endpoint : Except Unit String) : PromiseOutcome AccessToken :=
  match endpoint with
  | .error _ => .rejected
  | .ok result =>
      if bitbucket_oauth_callback_scope.contains "oauth2" then
        .fulfilled ⟨result⟩
      else
        .pending

/-- src/index.js lines 93-122: `get_pull_request_id` awaits
`bitbucket_oauth`, then issues the pull-request search (repository in
the URL, `pr_search_query branch` as the query) and resolves with
`values[0].id` (`none` when absent); a rejection of either step rejects
the outer promise via the final `.catch`. -/
def get_pull_request_id (endpoint : Except Unit String)
    (search : String → String → Except Unit (Option JsId))
    (repository branch : String) : PromiseOutcome (Option JsId) :=
  match bitbucket_oauth endpoint with
  | .pending => .pending
  | .rejected => .rejected
  | .fulfilled _ =>
      match search repository (pr_search_query branch) with
      | .error _ => .rejected
      | .ok r => .fulfilled r

/- ### Claim C10 -/

/-- C10: the success continuation of `bitbucket_oauth` evaluates the
identifier `oauth2`, which is unbound (the defined binding is
`bitbucket_oauth2`), so on every endpoint outcome `bitbucket_oauth`
never fulfills — a successful token response leaves the promise pending
and a failed one rejects it — and consequently `get_pull_request_id`
never resolves with a pull-request id on any input. -/
theorem c10_oauth2_unbound_never_fulfills :
    bitbucket_oauth_callback_scope.contains "oauth2" = false ∧
    bitbucket_oauth_callback_scope.contains "bitbucket_oauth2" = true ∧
    (∀ r : String, bitbucket_oauth (.ok r) = .pending) ∧
    (∀ e : Unit, bitbucket_oauth (.error e) = .rejected) ∧
    (∀ endpoint search repository branch r,
      get_pull_request_id endpoint search repository branch ≠ .fulfilled r) := by
  have hc : bitbucket_oauth_callback_scope.contains "oauth2" = false := by decide
  have hm : "oauth2" ∉ bitbucket_oauth_callback_scope := by decide
  refine ⟨hc, by decide, ?_, ?_, ?_⟩
  · intro r
    simp [bitbucket_oauth, hm]
  · intro e
    rfl
  · intro endpoint search repository branch r
    cases endpoint <;> simp [get_pull_request_id, bitbucket_oauth, hm]

/-- Witness for C10: with a successful token response the promise is
pending, hence in particular not fulfilled with the token it would
have built. -/
theorem c10_oauth2_unbound_never_fulfills_witness :
    bitbucket_oauth (.ok "tok") = .pending ∧
    get_pull_request_id (.ok "tok") (fun _ _ => .ok (some (.num 99)))
      "team/repo" "qa-main" ≠ .fulfilled (some (.num 99)) :=
  ⟨c10_oauth2_unbound_never_fulfills.2.2.1 "tok",
    c10_oauth2_unbound_never_fulfills.2.2.2.2 (.ok "tok")
      (fun _ _ => .ok (some (.num 99))) "team/repo" "qa-main" (some (.num 99))⟩

end Deploify
